import Mathlib

/-!
# Verification of `pull_partition_images_ADB.py`

A shallow embedding of the pure logic of the partition-pulling tool.
External effects (subprocess calls, console I/O, the filesystem) are made
explicit: each function that in the Python source consumes the text output
or return code of an external command takes that output as an argument;
the interactive prompt loops take the sequence of user inputs as a list and
return `none` when that list is exhausted without a valid entry (the Python
loop would still be prompting); a Python exception that would escape a
function (e.g. an `IndexError` from list indexing) is modelled by an
`Option` result of `none`.

Strings are modelled over their character sequences; the string primitives
(`str.lower`, `str.isdigit`, `str.split`, `str.strip`, the `in` operator)
are modelled with their Python semantics on the ASCII range, which covers
every constant the program compares against.
-/

namespace PullPartition

/-- Python whitespace characters (ASCII range), as used by `str.split()`
and `str.strip()` with no argument. -/
def pySpace (c : Char) : Bool :=
  c = ' ' ∨ c = '\t' ∨ c = '\n' ∨ c = '\r' ∨ c = '\x0b' ∨ c = '\x0c'

/-- Occurrence of `needle` as a contiguous block of `haystack`. -/
def infixAux (needle : List Char) : List Char → Bool
  | [] => needle.isEmpty
  | c :: t => needle.isPrefixOf (c :: t) || infixAux needle t

/-- Python `needle in haystack` on strings: substring containment. -/
def pyIn (needle haystack : String) : Bool :=
  infixAux needle.data haystack.data

/-- Split a character list at every separator character, keeping empty
pieces; `acc` holds the (reversed) characters of the current piece. -/
def splitCharAux (p : Char → Bool) : List Char → List Char → List String
  | [], acc => [⟨acc.reverse⟩]
  | c :: cs, acc =>
    if p c then ⟨acc.reverse⟩ :: splitCharAux p cs []
    else splitCharAux p cs (c :: acc)

/-- Split a string at every character satisfying `p`, keeping empty
pieces (so the empty string yields one empty piece, as Python's
single-separator `str.split` does). -/
def splitChar (p : Char → Bool) (s : String) : List String :=
  splitCharAux p s.data []

/-- Python `s.split("\n")`: split at every newline, keeping empty pieces. -/
def pyLines (s : String) : List String :=
  splitChar (· = '\n') s

/-- Python `s.split()` with no argument: split on runs of whitespace,
discarding empty pieces. -/
def pySplit (s : String) : List String :=
  (splitChar pySpace s).filter (· ≠ "")

/-- Python `s.split("/")`: split at every slash, keeping empty pieces. -/
def pySplitSlash (s : String) : List String :=
  splitChar (· = '/') s

/-- Python `s.strip()`: remove leading and trailing whitespace. -/
def pyStrip (s : String) : String :=
  ⟨((s.data.dropWhile pySpace).reverse.dropWhile pySpace).reverse⟩

/-- Python `s.lower()` on the ASCII range. -/
def pyLower (s : String) : String :=
  ⟨s.data.map Char.toLower⟩

/-- Python `s.isdigit()` on the ASCII range: nonempty and all decimal
digits. -/
def pyIsDigit (s : String) : Bool :=
  !s.data.isEmpty && s.data.all Char.isDigit

/-- Python `int(s)` on a string of decimal digits. -/
def pyToNat (s : String) : Nat :=
  s.data.foldl (fun n c => n * 10 + (c.toNat - '0'.toNat)) 0

/-- Last element of a list with a default, as Python `xs[-1]`
(the default is never used on the paths where Python would not raise). -/
def lastD (xs : List String) (d : String) : String :=
  xs.getLast?.getD d

/-! ## `get_partition_category` (source lines 38–58) -/

/-- The fixed fragment → category mapping, in the source's insertion
order (Python dict iteration order is insertion order). -/
def categories : List (String × String) :=
  [("boot", "Bootloader"),
   ("recovery", "Recovery"),
   ("system", "Android System"),
   ("vendor", "Vendor Data"),
   ("userdata", "User Data"),
   ("cache", "Cache"),
   ("metadata", "Metadata"),
   ("modem", "Modem Firmware"),
   ("persist", "Persistent Storage"),
   ("dtbo", "Device Tree Blob"),
   ("vbmeta", "Verified Boot Metadata")]

/-- The `for key in categories` loop: return the value of the first key
that is a substring of `s`, else `"Unknown"`. -/
def findCat : List (String × String) → String → String
  | [], _ => "Unknown"
  | (k, v) :: rest, s => if pyIn k s then v else findCat rest s

/-- `get_partition_category(partition_name)`: lower-case the label and scan
the fixed mapping in order; first substring match wins. -/
def get_partition_category (partition_name : String) : String :=
  findCat categories (pyLower partition_name)

/-! ## `list_partitions` (source lines 60–79)

The function consumes the return code and standard output of
`adb shell ls -l /dev/block/by-name` (`rc1`, `out1`) and the standard
output of the fallback `adb shell ls /dev/block` (`out2`).  A partition
descriptor is the tuple `(partition_name, partition_label, category)`
appended at source line 72. -/

/-- A partition descriptor: `(partition_name, partition_label, category)`. -/
abbrev Desc := String × String × String

/-- Parse one listing line containing `"->"`: `parts = line.split()`,
label `parts[-3]`, node `parts[-1].split("/")[-1]`.  Python raises
`IndexError` when the line has fewer than three tokens; that is the
`none` case. -/
def parseArrowLine (line : String) : Option Desc :=
  let parts := pySplit line
  if 3 ≤ parts.length then
    let partition_label := parts.getD (parts.length - 3) ""
    let partition_name := lastD (pySplitSlash (lastD parts "")) ""
    some (partition_name, partition_label, get_partition_category partition_label)
  else
    none

/-- Does the line contain the symlink marker? (`"->" in line`). -/
def hasArrow (line : String) : Bool :=
  pyIn "->" line

/-- The `for line in result.stdout.split("\n")` loop of `list_partitions`:
collect a descriptor from every `"->"` line, in input order; an
`IndexError` on any such line aborts the whole pass (`none`). -/
def parseNamedLines : List String → Option (List Desc)
  | [] => some []
  | l :: ls =>
    if hasArrow l then
      match parseArrowLine l with
      | none => none
      | some d => (parseNamedLines ls).map (d :: ·)
    else
      parseNamedLines ls

/-- The named-listing stage: the loop body runs only when the first
command's return code is zero, otherwise `partitions` stays empty. -/
def namedStage (rc1 : Int) (out1 : String) : Option (List Desc) :=
  if rc1 = 0 then parseNamedLines (pyLines out1) else some []

/-- The fallback list comprehension (source line 77): keep the lines of
the raw `/dev/block` listing containing `"mmcblk0p"`, each stripped and
used as both node and label, with category `"Unknown"`. -/
def fallbackPartitions (out2 : String) : List Desc :=
  ((pyLines out2).filter (fun l => pyIn "mmcblk0p" l)).map
    (fun l => (pyStrip l, pyStrip l, "Unknown"))

/-- `list_partitions()`: named parse first; if it recovered nothing, the
generic `mmcblk0p` fallback. -/
def list_partitions (rc1 : Int) (out1 out2 : String) : Option (List Desc) :=
  match namedStage rc1 out1 with
  | none => none
  | some ps => some (if ps.isEmpty then fallbackPartitions out2 else ps)

/-! ## `get_partition_size` (source lines 81–86) -/

/-- `get_partition_size(partition)`, as a function of the size query's
return code and standard output: `int(stdout.strip())` when the command
succeeded and the stripped output is all digits, else `None`. -/
def get_partition_size (rc : Int) (out : String) : Option Nat :=
  if rc = 0 ∧ pyIsDigit (pyStrip out) then some (pyToNat (pyStrip out)) else none

/-! ## `choose_partition` (source lines 88–105)

The `while True` input loop is a function of the sequence of user
inputs; exhausting the sequence without a valid entry leaves the Python
loop still prompting, modelled as `none`. -/

/-- The acceptance test of the input loop:
`choice.isdigit() and 1 <= int(choice) <= len(partitions) + 1`. -/
def validChoice (numParts : Nat) (choice : String) : Bool :=
  pyIsDigit choice && decide (1 ≤ pyToNat choice) && decide (pyToNat choice ≤ numParts + 1)

/-- The `while True` loop: first valid input wins; invalid inputs only
print `"Invalid choice, try again."` and reprompt. -/
def chooseLoop (numParts : Nat) : List String → Option String
  | [] => none
  | c :: cs => if validChoice numParts c then some c else chooseLoop numParts cs

/-- `choose_partition(partitions)`: run the input loop, then resolve the
accepted number to the full-disk path or a named-partition path.  The
index `int(choice) - 1` is within bounds whenever the loop accepted, so
the `getD` default is unreachable there. -/
def choose_partition (partitions : List Desc) (inputs : List String) : Option String :=
  match chooseLoop partitions.length inputs with
  | none => none
  | some choice =>
    if pyToNat choice = partitions.length + 1 then
      some "/dev/block/mmcblk0"
    else
      let partition_name := (partitions.getD (pyToNat choice - 1) ("", "", "")).1
      some (if pyIn "by-name" partition_name then
              "/dev/block/by-name/" ++ partition_name
            else
              "/dev/block/" ++ partition_name)

/-! ## `choose_save_location` (source lines 107–116)

The host filesystem enters as `isdir` (Python `os.path.isdir`) and
`dirname` (Python `os.path.dirname`); the prompt loop again consumes a
list of user inputs, `none` when it is exhausted while still prompting. -/

/-- `choose_save_location()`: reject an existing directory, accept a path
whose parent directory exists, reject otherwise; first accepted path
wins. -/
def choose_save_location (isdir : String → Bool) (dirname : String → String) :
    List String → Option String
  | [] => none
  | p :: ps =>
    if isdir p then choose_save_location isdir dirname ps
    else if isdir (dirname p) then some p
    else choose_save_location isdir dirname ps

/-! ## `detect_progress_tool` (source lines 118–125) -/

/-- `detect_progress_tool()` as a function of `platform.system()` and
whether `shutil.which("pv")` found the utility. -/
def detect_progress_tool (system : String) (pvAvailable : Bool) : String :=
  if system = "Windows" then "tqdm"
  else if system = "Linux" then (if pvAvailable then "pv" else "tqdm")
  else "tqdm"

/-! ## `pull_image` (source lines 127–169)

The device-side `dd` stream is the sequence of values returned by
successive `process.stdout.read(1024 * 1024)` calls: a list of byte
chunks, each of at most 1 MiB, where an empty chunk is how the stream
reports end-of-file.  The transfer result is the pair of the bytes
written to the local file and the final value of the `tqdm` progress
counter (`none` when the branch without a progress meter ran).  The
initial `check_root()` guard is the `rooted` argument; `exit(1)` is the
outer `none`. -/

/-- The read/write loop of the `"pv"` branch (source lines 143–148):
write each chunk and advance the counter by its length until a read
returns no bytes. -/
def transferLoopPv : List (List Nat) → List Nat × Nat
  | [] => ([], 0)
  | c :: cs =>
    if c.isEmpty then ([], 0)
    else
      let r := transferLoopPv cs
      (c ++ r.1, r.2 + c.length)

/-- The read/write loop of the `"tqdm"` branch (source lines 156–161),
textually identical to the `"pv"` branch's loop in the source. -/
def transferLoopTqdm : List (List Nat) → List Nat × Nat
  | [] => ([], 0)
  | c :: cs =>
    if c.isEmpty then ([], 0)
    else
      let r := transferLoopTqdm cs
      (c ++ r.1, r.2 + c.length)

/-- Python truthiness of `partition_size`: `None` and `0` are both
falsy. -/
def pyTruthy : Option Nat → Bool
  | none => false
  | some n => n ≠ 0

/-- `pull_image(partition, save_path, progress_tool)`: the branch on
`progress_tool` and the truthiness of `partition_size`, then the chunked
copy with a sized progress meter, or (final `else`) a plain
`subprocess.run(command, stdout=f)` that copies the whole stream with no
progress counter. -/
def pull_image (rooted : Bool) (progress_tool : String) (partition_size : Option Nat)
    (chunks : List (List Nat)) : Option (List Nat × Option Nat) :=
  if !rooted then none
  else if progress_tool = "pv" ∧ pyTruthy partition_size then
    let r := transferLoopPv chunks
    some (r.1, some r.2)
  else if progress_tool = "tqdm" ∧ pyTruthy partition_size then
    let r := transferLoopTqdm chunks
    some (r.1, some r.2)
  else
    some (chunks.flatten, none)

/-! ## Helper lemmas -/

/-- `findCat` returns the value at the first index whose key occurs in the
scanned string. -/
theorem findCat_first : ∀ (l : List (String × String)) (s : String) (i : Nat),
    i < l.length →
    pyIn (l.getD i ("", "")).1 s = true →
    (∀ j, j < i → pyIn (l.getD j ("", "")).1 s = false) →
    findCat l s = (l.getD i ("", "")).2
  | [], _, i, hi, _, _ => absurd hi (by simp)
  | (k, v) :: rest, s, 0, _, hm, _ => by
    simp only [List.getD_cons_zero] at hm ⊢
    simp [findCat, hm]
  | (k, v) :: rest, s, i + 1, hi, hm, hf => by
    have h0 : pyIn k s = false := by simpa using hf 0 (Nat.succ_pos i)
    simp only [List.getD_cons_succ] at hm ⊢
    rw [show findCat ((k, v) :: rest) s = findCat rest s by simp [findCat, h0]]
    exact findCat_first rest s i (by simpa using hi) hm
      (fun j hj => by simpa using hf (j + 1) (Nat.succ_lt_succ hj))

/-- Both copies of the read/write loop compute the same function. -/
theorem transferLoop_pv_eq_tqdm : ∀ cs, transferLoopPv cs = transferLoopTqdm cs
  | [] => rfl
  | c :: cs => by
    simp [transferLoopPv, transferLoopTqdm, transferLoop_pv_eq_tqdm cs]

/-- With no empty chunk before end of stream, the loop writes the whole
stream and counts every byte. -/
theorem transferLoopPv_flatten : ∀ (chunks : List (List Nat)),
    (∀ c ∈ chunks, c ≠ []) →
    transferLoopPv chunks = (chunks.flatten, chunks.flatten.length)
  | [], _ => by simp [transferLoopPv]
  | c :: cs, h => by
    have hc : c ≠ [] := h c (List.mem_cons_self c cs)
    have ih := transferLoopPv_flatten cs (fun x hx => h x (List.mem_cons_of_mem _ hx))
    simp [transferLoopPv, hc, ih, Nat.add_comm]

/-- `detect_progress_tool` only ever selects `"pv"` or `"tqdm"`. -/
theorem detect_cases (sys : String) (pv : Bool) :
    detect_progress_tool sys pv = "pv" ∨ detect_progress_tool sys pv = "tqdm" := by
  unfold detect_progress_tool
  split_ifs <;> simp

/-- When a `"->"` line has at least three tokens, `parseArrowLine`
succeeds, and its value is its own `getD`. -/
theorem parseArrowLine_getD (l : String) (h3 : 3 ≤ (pySplit l).length) :
    parseArrowLine l = some ((parseArrowLine l).getD ("", "", "")) := by
  simp [parseArrowLine, h3]

/-- When every `"->"` line has at least three tokens, the named-listing
loop succeeds and returns the parses of the `"->"` lines in input
order. -/
theorem parseNamedLines_eq : ∀ (lines : List String),
    (∀ l ∈ lines, hasArrow l = true → 3 ≤ (pySplit l).length) →
    parseNamedLines lines =
      some ((lines.filter hasArrow).map (fun l => (parseArrowLine l).getD ("", "", "")))
  | [], _ => by simp [parseNamedLines]
  | l :: ls, h => by
    have ih := parseNamedLines_eq ls (fun x hx => h x (List.mem_cons_of_mem _ hx))
    by_cases ha : hasArrow l = true
    · have h3 : 3 ≤ (pySplit l).length := h l (List.mem_cons_self l ls) ha
      obtain ⟨d, hd⟩ : ∃ d, parseArrowLine l = some d :=
        ⟨_, parseArrowLine_getD l h3⟩
      have hgd : (parseArrowLine l).getD ("", "", "") = d := by rw [hd]; rfl
      simp [parseNamedLines, ha, ih, hd, hgd]
    · simp [parseNamedLines, ha, ih]

/-! ## Claim theorems -/

/-- Claim C2, counterexample to the claim as stated: the label
`"bootsystem"` contains the known fragment `"system"`, yet the classifier
returns `"Bootloader"` (the category of the earlier fragment `"boot"`),
not `"Android System"`: with several known fragments present, not every
contained fragment's category can be returned. -/
theorem C2_cex :
    ("system", "Android System") ∈ categories ∧
    pyIn "system" (pyLower "bootsystem") = true ∧
    get_partition_category "bootsystem" = "Bootloader" ∧
    "Bootloader" ≠ "Android System" := by
  refine ⟨by decide, by decide, by decide, by decide⟩

/-- Claim C2 (amended): for every partition label, `get_partition_category`
returns the mapped category of the FIRST fragment, in the mapping's fixed
order, that occurs in the lower-cased label — regardless of surrounding
characters and of the label's case. -/
theorem C2_category_first_match (label : String) (i : Nat)
    (hi : i < categories.length)
    (hm : pyIn (categories.getD i ("", "")).1 (pyLower label) = true)
    (hf : ∀ j, j < i → pyIn (categories.getD j ("", "")).1 (pyLower label) = false) :
    get_partition_category label = (categories.getD i ("", "")).2 :=
  findCat_first categories (pyLower label) i hi hm hf

/-- Claim C2 witness: the label `"Boot_A"` (upper case, surrounded) maps to
`"Bootloader"`. -/
theorem C2_category_first_match_witness :
    get_partition_category "Boot_A" = "Bootloader" := by
  have h := C2_category_first_match "Boot_A" 0 (by decide) (by decide)
    (fun j hj => absurd hj (Nat.not_lt_zero j))
  exact h

/-- Claim C9: for a listing line containing the symlink marker, the
extraction of the label (`parts[-3]`) and device node (`parts[-1]`) is
defined exactly when the line splits into at least three
whitespace-separated tokens; with fewer, the per-line parse of
`list_partitions` is undefined (Python `IndexError`). -/
theorem C9_arrow_line_parse_in_bounds (line : String) (h : hasArrow line = true) :
    (parseArrowLine line).isSome = true ↔ 3 ≤ (pySplit line).length := by
  by_cases h3 : 3 ≤ (pySplit line).length <;> simp [parseArrowLine, h3]

/-- Claim C9 witness: a well-formed three-token symlink line parses. -/
theorem C9_witness :
    (parseArrowLine "boot_a -> /dev/block/sda5").isSome = true :=
  (C9_arrow_line_parse_in_bounds "boot_a -> /dev/block/sda5" (by decide)).mpr
    (by decide)

/-- Claim C3, counterexample to the claim as stated: the listing text
`"->"` has exactly one line containing the symlink marker, but
`list_partitions` does not return one descriptor — the line has fewer than
three tokens, the `parts[-3]` indexing raises `IndexError`, and the
enumeration dies (`none`). -/
theorem C3_cex :
    (pyLines "->").countP hasArrow = 1 ∧
    list_partitions 0 "->" "" = none := by
  refine ⟨by decide, by decide⟩

/-- Claim C3 (amended): for every named-block listing text whose
symlink-marker lines each split into at least three tokens, the named
parsing stage returns exactly one descriptor per symlink-marker line, in
input order; when at least one was recovered, `list_partitions` returns
exactly that list. -/
theorem C3_named_enumeration (out1 out2 : String)
    (h : ∀ l ∈ pyLines out1, hasArrow l = true → 3 ≤ (pySplit l).length) :
    ∃ ds, parseNamedLines (pyLines out1) = some ds ∧
      ds.length = (pyLines out1).countP hasArrow ∧
      ds = ((pyLines out1).filter hasArrow).map
        (fun l => (parseArrowLine l).getD ("", "", "")) ∧
      (ds ≠ [] → list_partitions 0 out1 out2 = some ds) := by
  refine ⟨_, parseNamedLines_eq (pyLines out1) h, ?_, rfl, ?_⟩
  · simp [← List.countP_eq_length_filter]
  · intro hne
    have hempty : (((pyLines out1).filter hasArrow).map
        (fun l => (parseArrowLine l).getD ("", "", ""))).isEmpty = false := by
      simpa [List.isEmpty_iff] using hne
    simp [list_partitions, namedStage, parseNamedLines_eq (pyLines out1) h, hempty]

/-- Claim C3 witness: one well-formed symlink line and one plain line give
exactly one descriptor. -/
theorem C3_named_enumeration_witness :
    parseNamedLines (pyLines "total 0\nlrwxrwxrwx 1 root root 16 boot_a -> /dev/block/sda5") =
      some [("sda5", "boot_a", "Bootloader")] := by
  obtain ⟨ds, h1, -, h3, -⟩ := C3_named_enumeration
    "total 0\nlrwxrwxrwx 1 root root 16 boot_a -> /dev/block/sda5" "" (by decide)
  rw [h1, h3]
  decide

/-- Claim C7: whenever the named stage recovers nothing (failed listing
command or no symlink lines), `list_partitions` returns, in listing
order, exactly the raw-block-listing lines containing `"mmcblk0p"`, each
stripped line serving as both node and label, with category
`"Unknown"`. -/
theorem C7_fallback_enumeration (rc1 : Int) (out1 out2 : String)
    (h : namedStage rc1 out1 = some []) :
    list_partitions rc1 out1 out2 = some (fallbackPartitions out2) ∧
    (fallbackPartitions out2).length =
      (pyLines out2).countP (fun l => pyIn "mmcblk0p" l) ∧
    (fallbackPartitions out2).map Prod.fst =
      ((pyLines out2).filter (fun l => pyIn "mmcblk0p" l)).map pyStrip ∧
    ∀ d ∈ fallbackPartitions out2, d.2.1 = d.1 ∧ d.2.2 = "Unknown" := by
  refine ⟨by simp [list_partitions, h], ?_, ?_, ?_⟩
  · simp [fallbackPartitions, ← List.countP_eq_length_filter]
  · simp [fallbackPartitions]
  · intro d hd
    obtain ⟨l, -, rfl⟩ := List.mem_map.mp hd
    exact ⟨rfl, rfl⟩

/-- Claim C7 witness: with a failed named listing, a raw listing with one
matching and one non-matching line yields exactly the matching entry. -/
theorem C7_fallback_enumeration_witness :
    list_partitions 1 "" "mmcblk0p1\nloop0" =
      some [("mmcblk0p1", "mmcblk0p1", "Unknown")] := by
  have h := (C7_fallback_enumeration 1 "" "mmcblk0p1\nloop0" (by decide)).1
  rw [h]
  decide

/-- Claim C5: over a list of `P` partitions, the selector loop skips
(reprompts past) every non-numeric entry and every integer outside
`1..P+1`, and accepts the boundary value `P+1`, for which
`choose_partition` returns the fixed full-disk block path. -/
theorem C5_selector (partitions : List Desc) (c s : String) (cs inputs : List String)
    (hc : pyIsDigit c = false ∨ pyToNat c < 1 ∨ partitions.length + 1 < pyToNat c)
    (hs : pyIsDigit s = true) (hv : pyToNat s = partitions.length + 1) :
    chooseLoop partitions.length (c :: cs) = chooseLoop partitions.length cs ∧
    choose_partition partitions (s :: inputs) = some "/dev/block/mmcblk0" := by
  have hinv : validChoice partitions.length c = false := by
    rcases hc with h | h | h <;> simp [validChoice, h]
  have hval : validChoice partitions.length s = true := by
    simp [validChoice, hs, hv]
  constructor
  · simp [chooseLoop, hinv]
  · simp [choose_partition, chooseLoop, hval, hv]

/-- Claim C5 witness: with one partition, the entry `"x"` is skipped and
the boundary entry `"2"` selects the full disk. -/
theorem C5_selector_witness :
    chooseLoop 1 ["x"] = chooseLoop 1 [] ∧
    choose_partition [("sda5", "boot_a", "Bootloader")] ["2"] =
      some "/dev/block/mmcblk0" := by
  have h := C5_selector [("sda5", "boot_a", "Bootloader")] "x" "2" [] []
    (Or.inl (by decide)) (by decide) (by decide)
  exact h

/-- Claim C10, counterexample to the claim as stated: the named
enumerator can produce a descriptor whose node name contains
`"by-name"` — a listing line whose symlink target's last path component
is `"by-name"` — and selecting it does take the
`"/dev/block/by-name/"` branch, so the branch is not unreachable for
named-enumerator descriptors. -/
theorem C10_cex :
    parseNamedLines (pyLines "x -> by-name") = some [("by-name", "x", "Unknown")] ∧
    choose_partition [("by-name", "x", "Unknown")] ["1"] =
      some "/dev/block/by-name/by-name" := by
  refine ⟨by decide, by decide⟩

/-- Claim C10 (amended): for every accepted in-range selection of a named
partition, `choose_partition` returns `"/dev/block/"` concatenated with
the descriptor's node name whenever that node name does not contain
`"by-name"`; the `"/dev/block/by-name/"` branch is taken exactly for
descriptors whose stored node name (the basename of the symlink target)
itself contains `"by-name"`. -/
theorem C10_raw_node_path (partitions : List Desc) (inputs : List String) (c : String)
    (hl : chooseLoop partitions.length inputs = some c)
    (hle : pyToNat c ≤ partitions.length)
    (hby : pyIn "by-name" (partitions.getD (pyToNat c - 1) ("", "", "")).1 = false) :
    choose_partition partitions inputs =
      some ("/dev/block/" ++ (partitions.getD (pyToNat c - 1) ("", "", "")).1) := by
  have hne : ¬ pyToNat c = partitions.length + 1 := by omega
  simp only [List.getD_eq_getElem?_getD] at hby
  simp [choose_partition, hl, hne, hby]

/-- Claim C10 witness: selecting the single named partition `"sda5"`
yields the raw node path. -/
theorem C10_raw_node_path_witness :
    choose_partition [("sda5", "boot_a", "Bootloader")] ["1"] =
      some "/dev/block/sda5" := by
  have h := C10_raw_node_path [("sda5", "boot_a", "Bootloader")] ["1"] "1"
    (by decide) (by decide) (by decide)
  exact h

/-- Claim C8: the destination validator skips (reprompts past) a path
that is an existing directory, skips a path whose parent directory does
not exist, and accepts a path whose parent exists and which is not
itself an existing directory. -/
theorem C8_save_location_validator (isdir : String → Bool) (dirname : String → String)
    (p : String) (ps : List String) :
    (isdir p = true →
      choose_save_location isdir dirname (p :: ps) = choose_save_location isdir dirname ps) ∧
    (isdir p = false → isdir (dirname p) = false →
      choose_save_location isdir dirname (p :: ps) = choose_save_location isdir dirname ps) ∧
    (isdir p = false → isdir (dirname p) = true →
      choose_save_location isdir dirname (p :: ps) = some p) := by
  refine ⟨?_, ?_, ?_⟩ <;> intros <;> simp [choose_save_location, *]

/-- Claim C8 witness: over a filesystem whose only directory is
`"base"`, the path `"base/file"` is accepted. -/
theorem C8_save_location_validator_witness :
    choose_save_location (fun q => q = "base") (fun _ => "base") ["base/file"] =
      some "base/file" :=
  (C8_save_location_validator (fun q => q = "base") (fun _ => "base")
    "base/file" []).2.2 (by decide) (by decide)

/-- Claim C4: when the size query reports unknown (`None`), `pull_image`
still completes for every progress tool and source stream, writing
exactly the source bytes, with no sized progress counter (the
meter-less branch). -/
theorem C4_unknown_size_transfer (rc : Int) (out : String) (tool : String)
    (chunks : List (List Nat)) (h : get_partition_size rc out = none) :
    pull_image true tool (get_partition_size rc out) chunks =
      some (chunks.flatten, none) := by
  rw [h]
  simp [pull_image, pyTruthy]

/-- Claim C4 witness: a failed size query (non-integer output) still
transfers both chunks. -/
theorem C4_unknown_size_transfer_witness :
    pull_image true "tqdm" (get_partition_size 0 "error") [[7], [8]] =
      some ([7, 8], none) := by
  have h := C4_unknown_size_transfer 0 "error" "tqdm" [[7], [8]] (by decide)
  exact h

/-- Claim C6: the `"pv"` and `"tqdm"` strategies selected by
`detect_progress_tool` give extensionally equal transfers: for every
root state, size-query result and source stream, `pull_image` writes the
same bytes and reports the same final progress under either tool. -/
theorem C6_progress_strategies_equal (rooted : Bool) (size : Option Nat)
    (chunks : List (List Nat)) :
    pull_image rooted "pv" size chunks = pull_image rooted "tqdm" size chunks := by
  by_cases ht : pyTruthy size = true <;>
    simp [pull_image, ht, transferLoop_pv_eq_tqdm chunks]

/-- Claim C1, counterexample to the claim as stated: with the partition
size known upfront but equal to `0` (a value the size query can return),
Python truthiness routes the transfer to the meter-less branch: the
single-byte stream is still written intact, but no progress counter
exists, so the counter's final value is not the stream length `1`. -/
theorem C1_cex :
    get_partition_size 0 "0" = some 0 ∧
    pull_image true (detect_progress_tool "Windows" false) (some 0) [[7]] =
      some ([7], none) ∧
    some ([7], (none : Option Nat)) ≠ some ([7], some 1) := by
  refine ⟨by decide, by decide, by decide⟩

/-- Claim C1 (amended): for every source stream (in arbitrary nonempty
chunk boundaries) and every upfront-known NONZERO partition size, the
transfer loop of `pull_image` — under whichever tool
`detect_progress_tool` selected — writes exactly the stream's bytes, and
the progress counter ends at the stream's byte length. -/
theorem C1_known_size_transfer (sys : String) (pv : Bool) (chunks : List (List Nat))
    (n : Nat) (hch : ∀ c ∈ chunks, c ≠ []) (hn : n ≠ 0) :
    pull_image true (detect_progress_tool sys pv) (some n) chunks =
      some (chunks.flatten, some chunks.flatten.length) := by
  have ht : pyTruthy (some n) = true := by simp [pyTruthy, hn]
  have hpv := transferLoopPv_flatten chunks hch
  have htq : transferLoopTqdm chunks = (chunks.flatten, chunks.flatten.length) :=
    (transferLoop_pv_eq_tqdm chunks) ▸ hpv
  rcases detect_cases sys pv with hd | hd <;> rw [hd] <;>
    simp [pull_image, ht, hpv, htq]

/-- Claim C1 witness: a 3-byte stream in two chunks, size known as 5,
lands as those 3 bytes with final counter 3. -/
theorem C1_known_size_transfer_witness :
    pull_image true (detect_progress_tool "Linux" true) (some 5) [[1, 2], [3]] =
      some ([1, 2, 3], some 3) := by
  have h := C1_known_size_transfer "Linux" true [[1, 2], [3]] 5 (by decide) (by decide)
  exact h

end PullPartition
